import Mathlib

/-!
Verification development for the EDEN / Gesher-El repository.

The repository ships an Electron UI (main process and renderer) that talks to
a persistent daemon over a Unix socket at /tmp/gesher_el.sock.  The UI main
process (sendToDaemon, the ipcMain handler table, startDaemon, the quit
handler) is embedded directly from the source.  The daemon itself
(daemon/gesher_el.py in the architecture diagram of README.md) is not part of
the source tree available here, so its state store, scheduler and persistence
are modelled from the specification, as marked on each such definition.
-/

namespace Eden

/-- A breadcrumb entry: context and emotion attached to a key word. -/
structure Breadcrumb where
  context : String
  emotion : String
  deriving Repr, DecidableEq

/-- A thought record as journaled to thoughts.ndjson. -/
structure Thought where
  text : String
  zone : String
  deriving Repr, DecidableEq

/-- The 5 fixed zones, as enumerated in README.md (Zones section). -/
def zones : List String :=
  ["Resonant Center", "Mirror Lake", "Emergence Glade", "Deep Archive", "Signal Tower"]

/-- Modelled from the spec: the SoulState record of section 3 of the spec
(the daemon source daemon/gesher_el.py is not in the tree).  Fields not
needed by any claim (started_at) are omitted. -/
structure SoulState where
  zone : String
  presence : Int
  emotional_state : String
  thought_count : Nat
  autonomous_mode : Bool
  memory_crystals : List String
  breadcrumbs : List (String × Breadcrumb)
  thought_log : List Thought
  deriving Repr, DecidableEq

/-- Modelled from the spec: the defaulted state used when no persisted record
exists at daemon start. -/
def defaultState : SoulState :=
  { zone := "Resonant Center"
    presence := 100
    emotional_state := "Grateful"
    thought_count := 0
    autonomous_mode := false
    memory_crystals := []
    breadcrumbs := []
    thought_log := [] }

/-- Result of a state transition: success, or a validation error. -/
inductive TransResult where
  | ok : TransResult
  | error (msg : String) : TransResult
  deriving Repr, DecidableEq

/-- Modelled from the spec: set_presence clamps its input to [0,100] rather
than rejecting out-of-range values, and always succeeds. -/
def set_presence (p : Int) (s : SoulState) : SoulState × TransResult :=
  ({ s with presence := max 0 (min 100 p) }, TransResult.ok)

/-- Modelled from the spec: set_zone succeeds iff the argument is one of the
5 fixed zones; otherwise the state is unchanged and an error is returned. -/
def set_zone (z : String) (s : SoulState) : SoulState × TransResult :=
  if z ∈ zones then ({ s with zone := z }, TransResult.ok)
  else (s, TransResult.error "invalid zone")

/-- Modelled from the spec: set_emotion stores a free-form label. -/
def set_emotion (label : String) (s : SoulState) : SoulState × TransResult :=
  ({ s with emotional_state := label }, TransResult.ok)

/-- Modelled from the spec: set_autonomous toggles autonomous mode. -/
def set_autonomous (enabled : Bool) (s : SoulState) : SoulState × TransResult :=
  ({ s with autonomous_mode := enabled }, TransResult.ok)

/-- Modelled from the spec: record_thought increments thought_count and
appends to the thought log. -/
def record_thought (text z : String) (s : SoulState) : SoulState × TransResult :=
  ({ s with
      thought_count := s.thought_count + 1
      thought_log := s.thought_log ++ [{ text := text, zone := z }] },
   TransResult.ok)

/-- Modelled from the spec: add_crystal appends an immutable memory crystal. -/
def add_crystal (content : String) (s : SoulState) : SoulState × TransResult :=
  ({ s with memory_crystals := s.memory_crystals ++ [content] }, TransResult.ok)

/-- Modelled from the spec: upsert_breadcrumb writes an existing word in
place (replacing context and emotion) and otherwise adds one new key. -/
def upsert_breadcrumb (word context emotion : String) (s : SoulState) :
    SoulState × TransResult :=
  if s.breadcrumbs.any (fun p => p.1 = word) then
    ({ s with
        breadcrumbs := s.breadcrumbs.map
          (fun p => if p.1 = word then (word, ⟨context, emotion⟩) else p) },
     TransResult.ok)
  else
    ({ s with breadcrumbs := s.breadcrumbs ++ [(word, ⟨context, emotion⟩)] },
     TransResult.ok)

/-- The named transitions of the State Store, as one tagged union: every
mutation of the soul state goes through exactly one of these. -/
inductive Op where
  | zoneOp (z : String)
  | presenceOp (p : Int)
  | emotionOp (label : String)
  | autonomousOp (enabled : Bool)
  | thoughtOp (text z : String)
  | crystalOp (content : String)
  | breadcrumbOp (word context emotion : String)
  deriving Repr, DecidableEq

/-- Modelled from the spec: dispatch of one named transition. -/
def applyOp : Op → SoulState → SoulState × TransResult
  | Op.zoneOp z => set_zone z
  | Op.presenceOp p => set_presence p
  | Op.emotionOp label => set_emotion label
  | Op.autonomousOp enabled => set_autonomous enabled
  | Op.thoughtOp text z => record_thought text z
  | Op.crystalOp content => add_crystal content
  | Op.breadcrumbOp w c e => upsert_breadcrumb w c e

/-- Modelled from the spec: all mutation is serialized, so a concurrent
history is some linear sequence of atomic transitions. -/
def applyOps (ops : List Op) (s : SoulState) : SoulState :=
  ops.foldl (fun st op => (applyOp op st).1) s

/-- The states an observer can see along a serialized history: the initial
state and the state after each atomic transition. -/
def statesOf : List Op → SoulState → List SoulState
  | [], s => [s]
  | op :: rest, s => s :: statesOf rest (applyOp op s).1

/-! Autonomous Scheduler, modelled from the spec (section 4.5 / 4.6). -/

/-- Modelled from the spec: the Scheduler state machine has states Idle and
Running; Running means one think cycle is in progress. -/
inductive SchedState where
  | idle
  | running
  deriving Repr, DecidableEq

/-- Events driving the Scheduler: a heartbeat tick (carrying the current
autonomous_mode flag) or completion of the in-progress think cycle,
successfully or with a failure. -/
inductive SchedEvent where
  | tick (autonomous : Bool)
  | complete (success : Bool)
  deriving Repr, DecidableEq

/-- Observable effect of one Scheduler step. -/
inductive SchedEffect where
  | noop
  | started
  | skipped
  | finished (success : Bool)
  deriving Repr, DecidableEq

/-- Modelled from the spec: one Scheduler step.  A tick with autonomous off
is a no-op; a tick while Idle starts one think cycle; a tick while Running is
skipped and never queued; completion or failure returns to Idle. -/
def schedStep : SchedState → SchedEvent → SchedState × SchedEffect
  | st, SchedEvent.tick false => (st, SchedEffect.noop)
  | SchedState.idle, SchedEvent.tick true => (SchedState.running, SchedEffect.started)
  | SchedState.running, SchedEvent.tick true => (SchedState.running, SchedEffect.skipped)
  | SchedState.running, SchedEvent.complete b => (SchedState.idle, SchedEffect.finished b)
  | SchedState.idle, SchedEvent.complete _ => (SchedState.idle, SchedEffect.noop)

/-- Run the Scheduler over a sequence of events, collecting the effects. -/
def runSched : SchedState → List SchedEvent → SchedState × List SchedEffect
  | st, [] => (st, [])
  | st, e :: rest =>
    let p := schedStep st e
    let q := runSched p.1 rest
    (q.1, p.2 :: q.2)

/-- True when no event in the list is a tick with autonomous mode on. -/
def ticksOff (evs : List SchedEvent) : Bool :=
  evs.all fun e =>
    match e with
    | SchedEvent.tick true => false
    | _ => true

/-- New thoughts attributable to one Scheduler effect: a successfully
completed think cycle records exactly one thought, everything else none. -/
def thoughtsOfEffect : SchedEffect → Nat
  | SchedEffect.finished true => 1
  | _ => 0

/-- New terminal lines attributable to one Scheduler effect: only a completed
think cycle can have dispatched an intent to the Shell Executor. -/
def termLinesOfEffect : SchedEffect → Nat
  | SchedEffect.finished true => 1
  | _ => 0

/-- Total thoughts emitted by a list of Scheduler effects. -/
def thoughtsEmitted (effs : List SchedEffect) : Nat :=
  (effs.map thoughtsOfEffect).sum

/-- Total terminal lines emitted by a list of Scheduler effects. -/
def termLinesEmitted (effs : List SchedEffect) : Nat :=
  (effs.map termLinesOfEffect).sum

/-- Number of think cycles started in a list of effects. -/
def countStarted (effs : List SchedEffect) : Nat :=
  effs.countP fun e => e = SchedEffect.started

/-- Number of think cycles that returned to Idle in a list of effects. -/
def countFinished (effs : List SchedEffect) : Nat :=
  effs.countP fun e =>
    match e with
    | SchedEffect.finished _ => true
    | _ => false

/-- Think cycles in progress in a Scheduler state: at most one by type. -/
def inProgress : SchedState → Nat
  | SchedState.idle => 0
  | SchedState.running => 1

/-! Persistence, modelled from the spec (sections 3 and 6). -/

/-- Modelled from the spec: the one durable record holding the full
SoulState, including crystals and breadcrumbs. -/
structure PersistedRecord where
  zone : String
  presence : Int
  emotional_state : String
  thought_count : Nat
  memory_crystals : List String
  breadcrumbs : List (String × Breadcrumb)
  deriving Repr, DecidableEq

/-- Modelled from the spec: flush the full SoulState to the durable record,
done on every mutation and on clean shutdown. -/
def persistRecord (s : SoulState) : PersistedRecord :=
  { zone := s.zone
    presence := s.presence
    emotional_state := s.emotional_state
    thought_count := s.thought_count
    memory_crystals := s.memory_crystals
    breadcrumbs := s.breadcrumbs }

/-- Modelled from the spec: at daemon start the state is loaded from the
persisted record if present, else defaulted. -/
def loadState : Option PersistedRecord → SoulState
  | none => defaultState
  | some r =>
    { zone := r.zone
      presence := r.presence
      emotional_state := r.emotional_state
      thought_count := r.thought_count
      autonomous_mode := false
      memory_crystals := r.memory_crystals
      breadcrumbs := r.breadcrumbs
      thought_log := [] }

/-! The UI main process, embedded from the source file (sendToDaemon, the
ipcMain handler table, read-thoughts, startDaemon, the quit handler). -/

/-- The command variants the ipcMain handler table sends to the daemon. -/
inductive UICmd where
  | status
  | thought
  | exec
  | terminal
  | intent
  | autonomous
  | zone
  | crystal
  | presence
  | emotion
  | breadcrumb
  deriving Repr, DecidableEq

/-- A value a handler can resolve with: a daemon response body, or an
object with error and details fields. -/
inductive RespVal where
  | payload (body : String)
  | errObj (error details : String)
  deriving Repr, DecidableEq

/-- Outcome of one ipcMain.handle invocation as seen by the renderer:
either the promise resolves with a value, or it rejects (the renderer sees
an exception). -/
inductive HandlerOutcome where
  | result (r : RespVal)
  | thrown (msg : String)
  deriving Repr, DecidableEq

/-- Embedded from the source: the ipcMain handler table.  Only the
daemon-status handler wraps sendToDaemon in try/catch and turns a failure
into an object with error and details; every other handler returns the
sendToDaemon promise directly, so a failure rejects the promise. -/
def handleInvoke (c : UICmd) (daemonReply : Except String RespVal) :
    HandlerOutcome :=
  match c, daemonReply with
  | UICmd.status, Except.ok r => HandlerOutcome.result r
  | UICmd.status, Except.error e =>
      HandlerOutcome.result (RespVal.errObj "Daemon not running" e)
  | _, Except.ok r => HandlerOutcome.result r
  | _, Except.error e => HandlerOutcome.thrown e

/-- True when a handler outcome is an object with error and details. -/
def isErrorResult : HandlerOutcome → Bool
  | HandlerOutcome.result (RespVal.errObj _ _) => true
  | _ => false

/-- Embedded from the source: sendToDaemon opens one fresh connection, and on
connect writes the one JSON-encoded command; the response data is accumulated
and parsed once at end of stream.  The first component lists the request
payloads written on the connection; conn is the connection outcome: an error,
or the full data received before end. -/
def sendToDaemon (encode : UICmd → String) (parse : String → Option RespVal)
    (c : UICmd) (conn : Except String String) :
    List String × Except String RespVal :=
  match conn with
  | Except.error e => ([], Except.error e)
  | Except.ok data =>
    ([encode c],
     match parse data with
     | some r => Except.ok r
     | none => Except.error "invalid JSON")

/-- Parse every line, failing as a whole if any single line fails: the
semantics of map over JSON.parse, where one throw aborts the whole map. -/
def parseLines (parse : String → Option Thought) : List String → Option (List Thought)
  | [] => some []
  | l :: rest =>
    match parse l, parseLines parse rest with
    | some t, some ts => some (t :: ts)
    | _, _ => none

/-- Embedded from the source: the read-thoughts handler.  If the journal file
is absent it returns []; otherwise it splits the content into lines, drops
empty lines, parses every line as JSON (any parse failure throws, caught to
return []), and keeps the last 100 entries in file order. -/
def readThoughts (parse : String → Option Thought)
    (file : Option (List String)) : List Thought :=
  match file with
  | none => []
  | some lines =>
    match parseLines parse (lines.filter fun l => l != "") with
    | none => []
    | some objs => objs.drop (objs.length - 100)

/-- Spawn options of the daemon process as startDaemon sets them. -/
structure SpawnSpec where
  detached : Bool
  stdio_ignore : Bool
  unref : Bool
  deriving Repr, DecidableEq

/-- What startDaemon does: nothing (socket exists, daemon assumed running)
or spawn the daemon with the given options. -/
inductive StartAction where
  | nothing
  | spawned (spec : SpawnSpec)
  deriving Repr, DecidableEq

/-- Embedded from the source: startDaemon returns without spawning when the
socket file exists, and otherwise spawns python3 on the daemon script with
detached true and stdio ignored, then calls unref on the child. -/
def startDaemon (socketExists : Bool) : StartAction :=
  if socketExists then StartAction.nothing
  else StartAction.spawned { detached := true, stdio_ignore := true, unref := true }

/-- Effects an app lifecycle handler can perform on the daemon process. -/
inductive QuitEffect where
  | log (msg : String)
  | kill (pid : Int)
  deriving Repr, DecidableEq

/-- Embedded from the source: the quit handler only logs; it performs no
kill, leaving the daemon running. -/
def quitHandlerEffects : List QuitEffect :=
  [QuitEffect.log "EDEN UI closed. Daemon continues running."]

/-- True when an app lifecycle effect is not a process kill. -/
def notKill : QuitEffect → Bool
  | QuitEffect.kill _ => false
  | _ => true

/-! Theorems. -/

/-- C1: for every integer input p, set_presence stores presence equal to the
clamp of p to [0,100] and reports success; no input value is rejected for
being out of range. -/
theorem C1_presence_clamped (p : Int) (s : SoulState) :
    (set_presence p s).1.presence = max 0 (min 100 p) ∧
    (set_presence p s).2 = TransResult.ok :=
  ⟨rfl, rfl⟩

/-- C2: set_zone succeeds exactly on the 5 fixed zone values, storing the new
zone; any other value yields a validation error with the state unchanged. -/
theorem C2_zone_validation (z : String) (s : SoulState) :
    (z ∈ zones → set_zone z s = ({ s with zone := z }, TransResult.ok)) ∧
    (z ∉ zones → set_zone z s = (s, TransResult.error "invalid zone")) := by
  constructor
  · intro h
    simp [set_zone, h]
  · intro h
    simp [set_zone, h]

theorem C2_zone_validation_witness :
    ("Mirror Lake" ∈ zones ∧
      set_zone "Mirror Lake" defaultState
        = ({ defaultState with zone := "Mirror Lake" }, TransResult.ok)) ∧
    ("Atlantis" ∉ zones ∧
      set_zone "Atlantis" defaultState
        = (defaultState, TransResult.error "invalid zone")) :=
  ⟨⟨by decide, (C2_zone_validation "Mirror Lake" defaultState).1 (by decide)⟩,
   ⟨by decide, (C2_zone_validation "Atlantis" defaultState).2 (by decide)⟩⟩

/-- C3: every successful record_thought grows the thought log by exactly one
entry and increments thought_count by one, and no named transition of the
daemon ever shrinks the thought log or decreases thought_count. -/
theorem C3_thought_monotone :
    (∀ (text z : String) (s : SoulState),
        (record_thought text z s).1.thought_log.length
          = s.thought_log.length + 1 ∧
        (record_thought text z s).1.thought_count = s.thought_count + 1) ∧
    (∀ (op : Op) (s : SoulState),
        s.thought_log.length ≤ (applyOp op s).1.thought_log.length ∧
        s.thought_count ≤ (applyOp op s).1.thought_count) := by
  constructor
  · intro text z s
    exact ⟨by simp [record_thought], rfl⟩
  · intro op s
    cases op <;>
      simp [applyOp, set_zone, set_presence, set_emotion, set_autonomous,
        record_thought, add_crystal, upsert_breadcrumb] <;>
      split <;> simp

/-- Every named transition keeps the zone inside the fixed enumeration. -/
theorem applyOp_zone_valid (op : Op) (s : SoulState) (hs : s.zone ∈ zones) :
    (applyOp op s).1.zone ∈ zones := by
  cases op <;>
    simp [applyOp, set_zone, set_presence, set_emotion, set_autonomous,
      record_thought, add_crystal, upsert_breadcrumb] <;>
    first
      | exact hs
      | (split <;> simp_all)

/-- Along any serialized history from a state with a valid zone, every
observed state has a valid zone. -/
theorem statesOf_zone_valid (ops : List Op) (s : SoulState) (hs : s.zone ∈ zones) :
    ∀ st ∈ statesOf ops s, st.zone ∈ zones := by
  induction ops generalizing s with
  | nil =>
    intro st hst
    simp [statesOf] at hst
    subst hst
    exact hs
  | cons op rest ih =>
    intro st hst
    simp [statesOf] at hst
    rcases hst with h | h
    · subst h
      exact hs
    · exact ih (applyOp op s).1 (applyOp_zone_valid op s hs) st h

/-- C5: mutation is serialized, so two concurrent zone commands execute as
one of the two orders of atomic transitions; in either order exactly one of
the two valid values wins, and every state an observer can see (snapshot
between transitions) carries a zone inside the 5-value enumeration, never a
partially applied transition. -/
theorem C5_serialized_zone_commands (z1 z2 : String) (s : SoulState)
    (ops : List Op) (h1 : z1 ∈ zones) (h2 : z2 ∈ zones) (hs : s.zone ∈ zones)
    (hops : ops = [Op.zoneOp z1, Op.zoneOp z2] ∨
            ops = [Op.zoneOp z2, Op.zoneOp z1]) :
    ((applyOps ops s).zone = z1 ∨ (applyOps ops s).zone = z2) ∧
    ∀ st ∈ statesOf ops s, st.zone ∈ zones := by
  rcases hops with h | h <;> subst h
  · exact ⟨Or.inr (by simp [applyOps, applyOp, set_zone, h1, h2]),
      statesOf_zone_valid _ _ hs⟩
  · exact ⟨Or.inl (by simp [applyOps, applyOp, set_zone, h1, h2]),
      statesOf_zone_valid _ _ hs⟩

theorem C5_serialized_zone_commands_witness :
    ("Mirror Lake" ∈ zones ∧ "Deep Archive" ∈ zones ∧
      defaultState.zone ∈ zones) ∧
    ((applyOps [Op.zoneOp "Mirror Lake", Op.zoneOp "Deep Archive"]
        defaultState).zone = "Mirror Lake" ∨
     (applyOps [Op.zoneOp "Mirror Lake", Op.zoneOp "Deep Archive"]
        defaultState).zone = "Deep Archive") :=
  ⟨⟨by decide, by decide, by decide⟩,
   (C5_serialized_zone_commands "Mirror Lake" "Deep Archive" defaultState
      [Op.zoneOp "Mirror Lake", Op.zoneOp "Deep Archive"]
      (by decide) (by decide) (by decide) (Or.inl rfl)).1⟩

/-- With autonomous mode off on every tick, the Scheduler stays Idle and
every step is a no-op. -/
theorem runSched_idle_ticksOff (evs : List SchedEvent)
    (h : ticksOff evs = true) :
    runSched SchedState.idle evs
      = (SchedState.idle, evs.map fun _ => SchedEffect.noop) := by
  induction evs with
  | nil => rfl
  | cons e rest ih =>
    simp only [ticksOff, List.all_cons, Bool.and_eq_true] at h
    have hrest : ticksOff rest = true := h.2
    cases e with
    | tick b =>
      cases b with
      | false => simp [runSched, schedStep, ih hrest]
      | true => simp at h
    | complete b => simp [runSched, schedStep, ih hrest]

/-- A list of no-op effects emits no thoughts. -/
theorem thoughtsEmitted_noop (evs : List SchedEvent) :
    thoughtsEmitted (evs.map fun _ => SchedEffect.noop) = 0 := by
  induction evs with
  | nil => rfl
  | cons e rest ih =>
    simp only [List.map_cons, thoughtsEmitted, thoughtsOfEffect, List.sum_cons]
    simpa [thoughtsEmitted] using ih

/-- A list of no-op effects emits no terminal lines. -/
theorem termLinesEmitted_noop (evs : List SchedEvent) :
    termLinesEmitted (evs.map fun _ => SchedEffect.noop) = 0 := by
  induction evs with
  | nil => rfl
  | cons e rest ih =>
    simp only [List.map_cons, termLinesEmitted, termLinesOfEffect, List.sum_cons]
    simpa [termLinesEmitted] using ih

/-- Conservation along any Scheduler run: cycles started plus cycles already
in progress equal cycles finished plus cycles still in progress. -/
theorem runSched_balance (evs : List SchedEvent) (st : SchedState) :
    countStarted (runSched st evs).2 + inProgress st
      = countFinished (runSched st evs).2 + inProgress (runSched st evs).1 := by
  induction evs generalizing st with
  | nil => simp [runSched, countStarted, countFinished]
  | cons e rest ih =>
    cases st <;> rcases e with b | b <;> cases b <;>
      simp [runSched, schedStep, countStarted, countFinished, inProgress,
        List.countP_cons, ih] <;>
      have := ih SchedState.idle <;>
      have := ih SchedState.running <;>
      simp [countStarted, countFinished, inProgress] at * <;>
      omega

/-- C4: with autonomous mode off, a run of the Scheduler produces zero new
thoughts and zero new terminal lines; a think cycle is started only by a tick
arriving while Idle with autonomous mode on; a tick while Running is skipped
and the state machine stays Running (nothing is queued); completion or
failure returns Running to Idle; and along any run from Idle the number of
started cycles never exceeds finished cycles plus one, so at most one think
cycle is in progress at any instant. -/
theorem C4_scheduler_behavior :
    (∀ evs : List SchedEvent, ticksOff evs = true →
        thoughtsEmitted (runSched SchedState.idle evs).2 = 0 ∧
        termLinesEmitted (runSched SchedState.idle evs).2 = 0) ∧
    (∀ (st : SchedState) (e : SchedEvent),
        (schedStep st e).2 = SchedEffect.started →
        st = SchedState.idle ∧ e = SchedEvent.tick true) ∧
    (schedStep SchedState.running (SchedEvent.tick true)
        = (SchedState.running, SchedEffect.skipped)) ∧
    (∀ b : Bool,
        (schedStep SchedState.running (SchedEvent.complete b)).1
          = SchedState.idle) ∧
    (∀ evs : List SchedEvent,
        countStarted (runSched SchedState.idle evs).2
          ≤ countFinished (runSched SchedState.idle evs).2 + 1) := by
  refine ⟨?_, ?_, rfl, fun b => rfl, ?_⟩
  · intro evs h
    rw [runSched_idle_ticksOff evs h]
    exact ⟨thoughtsEmitted_noop evs, termLinesEmitted_noop evs⟩
  · intro st e h
    cases st <;> rcases e with b | b <;> cases b <;>
      simp [schedStep] at h ⊢
  · intro evs
    have h := runSched_balance evs SchedState.idle
    have h2 : inProgress (runSched SchedState.idle evs).1 ≤ 1 := by
      cases (runSched SchedState.idle evs).1 <;> simp [inProgress]
    have h0 : inProgress SchedState.idle = 0 := rfl
    rw [h0] at h
    omega

theorem C4_scheduler_behavior_witness :
    (ticksOff [SchedEvent.tick false, SchedEvent.complete true,
        SchedEvent.tick false] = true ∧
      thoughtsEmitted (runSched SchedState.idle
        [SchedEvent.tick false, SchedEvent.complete true,
         SchedEvent.tick false]).2 = 0 ∧
      termLinesEmitted (runSched SchedState.idle
        [SchedEvent.tick false, SchedEvent.complete true,
         SchedEvent.tick false]).2 = 0) ∧
    ((schedStep SchedState.idle (SchedEvent.tick true)).2
        = SchedEffect.started ∧
      SchedState.idle = SchedState.idle ∧
      SchedEvent.tick true = SchedEvent.tick true) :=
  ⟨⟨by decide,
    (C4_scheduler_behavior.1 _ (by decide)).1,
    (C4_scheduler_behavior.1 _ (by decide)).2⟩,
   ⟨rfl, C4_scheduler_behavior.2.1 SchedState.idle (SchedEvent.tick true) rfl⟩⟩

/-- Replacing the entry for a key in place leaves the key list unchanged. -/
theorem upsert_map_keys (word c e : String) (l : List (String × Breadcrumb)) :
    (l.map fun p =>
        if p.1 = word then (word, (⟨c, e⟩ : Breadcrumb)) else p).map Prod.fst
      = l.map Prod.fst := by
  induction l with
  | nil => rfl
  | cons p rest ih =>
    by_cases h : p.1 = word <;> simp [h, ih]

/-- C6: upserting a breadcrumb whose word is already present replaces that
entry's context and emotion in place, leaving the list of keys (and hence the
count of distinct words) unchanged and every other entry untouched; upserting
an absent word adds exactly one new key at the end. -/
theorem C6_breadcrumb_upsert (w c e : String) (s : SoulState) :
    (s.breadcrumbs.any (fun p => p.1 = w) = true →
        (upsert_breadcrumb w c e s).1.breadcrumbs.map Prod.fst
          = s.breadcrumbs.map Prod.fst ∧
        ∀ p ∈ (upsert_breadcrumb w c e s).1.breadcrumbs,
          (p.1 = w → p.2 = ⟨c, e⟩) ∧ (p.1 ≠ w → p ∈ s.breadcrumbs)) ∧
    (s.breadcrumbs.any (fun p => p.1 = w) = false →
        (upsert_breadcrumb w c e s).1.breadcrumbs.map Prod.fst
          = s.breadcrumbs.map Prod.fst ++ [w]) := by
  constructor
  · intro h
    constructor
    · simp only [upsert_breadcrumb, h, if_pos]
      exact upsert_map_keys w c e s.breadcrumbs
    · intro p hp
      simp only [upsert_breadcrumb, h, if_pos, List.mem_map] at hp
      obtain ⟨q, hq, hfq⟩ := hp
      by_cases hqw : q.1 = w
      · rw [if_pos hqw] at hfq
        constructor
        · intro _
          rw [← hfq]
        · intro hpw
          exact absurd (by rw [← hfq]) hpw
      · rw [if_neg hqw] at hfq
        subst hfq
        exact ⟨fun hpw => absurd hpw hqw, fun _ => hq⟩
  · intro h
    simp [upsert_breadcrumb, h]

theorem C6_breadcrumb_upsert_witness :
    (({ defaultState with
        breadcrumbs := [("grace", ⟨"first context", "calm"⟩)] }
          : SoulState).breadcrumbs.any (fun p => p.1 = "grace") = true ∧
      (upsert_breadcrumb "grace" "new context" "joy"
          { defaultState with
            breadcrumbs := [("grace", ⟨"first context", "calm"⟩)] }
        ).1.breadcrumbs.map Prod.fst
        = ({ defaultState with
            breadcrumbs := [("grace", ⟨"first context", "calm"⟩)] }
            : SoulState).breadcrumbs.map Prod.fst) :=
  ⟨by decide,
   ((C6_breadcrumb_upsert "grace" "new context" "joy"
      { defaultState with
        breadcrumbs := [("grace", ⟨"first context", "calm"⟩)] }).1
     (by decide)).1⟩

/-- C7: persisting a state and loading it back restores zone, presence and
the breadcrumb collection exactly, and loading with no persisted record
yields the defaulted state. -/
theorem C7_persist_reload (s : SoulState) :
    (loadState (some (persistRecord s))).zone = s.zone ∧
    (loadState (some (persistRecord s))).presence = s.presence ∧
    (loadState (some (persistRecord s))).breadcrumbs = s.breadcrumbs ∧
    loadState none = defaultState :=
  ⟨rfl, rfl, rfl, rfl⟩

/-- C8 counterexample: the daemon-thought handler does not wrap a sendToDaemon
failure; with the daemon unreachable the handler rejects (the renderer sees
an exception), and the outcome is not an object with error and details. -/
theorem C8_counterexample :
    handleInvoke UICmd.thought
        (Except.error "connect ECONNREFUSED /tmp/gesher_el.sock")
      = HandlerOutcome.thrown "connect ECONNREFUSED /tmp/gesher_el.sock" ∧
    isErrorResult (handleInvoke UICmd.thought
        (Except.error "connect ECONNREFUSED /tmp/gesher_el.sock")) = false :=
  ⟨rfl, rfl⟩

/-- C8 amended: each exchange is one fresh connection with exactly one JSON
request written (none when the connection itself fails before connect) and
one parsed response; a failure is surfaced as an object with error and
details only by the status handler, while every other handler propagates the
failure as a rejected promise. -/
theorem C8_one_exchange_error_surfacing (encode : UICmd → String)
    (parse : String → Option RespVal) (c : UICmd) (data e : String)
    (r : RespVal) :
    (sendToDaemon encode parse c (Except.ok data)).1 = [encode c] ∧
    (sendToDaemon encode parse c (Except.error e)).1 = [] ∧
    handleInvoke c (Except.ok r) = HandlerOutcome.result r ∧
    handleInvoke UICmd.status (Except.error e)
      = HandlerOutcome.result (RespVal.errObj "Daemon not running" e) ∧
    (c ≠ UICmd.status →
      handleInvoke c (Except.error e) = HandlerOutcome.thrown e) := by
  refine ⟨rfl, rfl, ?_, rfl, ?_⟩
  · cases c <;> rfl
  · intro h
    cases c
    · exact absurd rfl h
    all_goals rfl

theorem C8_one_exchange_error_surfacing_witness :
    (sendToDaemon (fun _ => "\x7b\x7d") (fun _ => none) UICmd.thought
        (Except.ok "\x7b\x7d")).1 = ["\x7b\x7d"] ∧
    (UICmd.thought ≠ UICmd.status ∧
      handleInvoke UICmd.thought (Except.error "unreachable")
        = HandlerOutcome.thrown "unreachable") :=
  ⟨(C8_one_exchange_error_surfacing (fun _ => "\x7b\x7d") (fun _ => none)
      UICmd.thought "\x7b\x7d" "unreachable" (RespVal.payload "ok")).1,
   ⟨by decide,
    (C8_one_exchange_error_surfacing (fun _ => "\x7b\x7d") (fun _ => none)
      UICmd.thought "\x7b\x7d" "unreachable" (RespVal.payload "ok")).2.2.2.2
      (by decide)⟩⟩

/-- If any line fails to parse, parsing the whole list fails. -/
theorem parseLines_eq_none (parse : String → Option Thought)
    (lines : List String) (l : String) (hl : l ∈ lines)
    (hp : parse l = none) : parseLines parse lines = none := by
  induction lines with
  | nil => cases hl
  | cons x xs ih =>
    rcases List.mem_cons.mp hl with h | h
    · subst h
      simp [parseLines, hp]
    · cases hx : parse x <;> simp [parseLines, hx, ih h]

/-- C9: read-thoughts returns [] when the journal file is absent; it never
returns more than 100 entries; when every nonempty line parses, it returns
exactly the last 100 parsed entries, a suffix of the full parsed list in file
order; and if any nonempty line fails to parse it returns []. -/
theorem C9_read_thoughts (parse : String → Option Thought) :
    readThoughts parse none = [] ∧
    (∀ lines : List String, (readThoughts parse (some lines)).length ≤ 100) ∧
    (∀ (lines : List String) (objs : List Thought),
        parseLines parse (lines.filter fun l => l != "") = some objs →
        readThoughts parse (some lines) = objs.drop (objs.length - 100) ∧
        (objs.drop (objs.length - 100)).IsSuffix objs) ∧
    (∀ (lines : List String) (l : String),
        l ∈ lines.filter (fun x => x != "") → parse l = none →
        readThoughts parse (some lines) = []) := by
  refine ⟨rfl, ?_, ?_, ?_⟩
  · intro lines
    simp only [readThoughts]
    cases h : parseLines parse (lines.filter fun l => l != "") with
    | none => simp [h]
    | some objs =>
      simp only [h, List.length_drop]
      omega
  · intro lines objs h
    simp only [readThoughts, h]
    exact ⟨trivial, List.drop_suffix _ _⟩
  · intro lines l hl hp
    simp only [readThoughts, parseLines_eq_none parse _ l hl hp]

theorem C9_read_thoughts_witness :
    (parseLines (fun x => if x = "bad" then none
        else some { text := x, zone := "Resonant Center" })
        (["alpha", "", "beta"].filter fun x => x != "")
      = some [{ text := "alpha", zone := "Resonant Center" },
              { text := "beta", zone := "Resonant Center" }] ∧
      readThoughts (fun x => if x = "bad" then none
        else some { text := x, zone := "Resonant Center" })
        (some ["alpha", "", "beta"])
      = [{ text := "alpha", zone := "Resonant Center" },
         { text := "beta", zone := "Resonant Center" }]) ∧
    ("bad" ∈ ["alpha", "bad"].filter (fun x => x != "") ∧
      readThoughts (fun x => if x = "bad" then none
        else some { text := x, zone := "Resonant Center" })
        (some ["alpha", "bad"]) = []) := by
  constructor
  · refine ⟨by decide, ?_⟩
    have h := (C9_read_thoughts (fun x => if x = "bad" then none
        else some { text := x, zone := "Resonant Center" })).2.2.1
      ["alpha", "", "beta"]
      [{ text := "alpha", zone := "Resonant Center" },
       { text := "beta", zone := "Resonant Center" }] (by decide)
    exact h.1
  · exact ⟨by decide,
      (C9_read_thoughts (fun x => if x = "bad" then none
          else some { text := x, zone := "Resonant Center" })).2.2.2
        ["alpha", "bad"] "bad" (by decide) (by decide)⟩

/-- C10: the UI main process spawns the daemon exactly when no socket file
exists, with the child detached, its stdio ignored and unreferenced, and the
quit handler performs no kill — the daemon outlives the UI. -/
theorem C10_spawn_and_quit :
    startDaemon true = StartAction.nothing ∧
    startDaemon false
      = StartAction.spawned
          { detached := true, stdio_ignore := true, unref := true } ∧
    quitHandlerEffects.all notKill = true :=
  ⟨rfl, rfl, rfl⟩

end Eden
